import Mathlib

/-!
# Verification of the bolt crypto-agent core

A shallow embedding of the crypto-agent core of this repository, and proofs
of its specified properties.  The embedding covers:

* the task registry and its dispatch wrapper (`CryptoAgent.executeTask`),
* the individual task handlers (`checkPrice`, `executeTrade`,
  `analyzeMarket`, `interactWithContract`) with their pure analysis helpers,
* the automation rule engine (`AutomationAgent`: `addRule`, `removeRule`,
  `startMonitoring`, `stopMonitoring`, `stopAllMonitoring`,
  `getActiveRules`, `evaluateCondition`),
* the message router's price-check handler (`handlePriceCheck`).

Network calls (`market.getPrice`, `market.getTopCryptos`,
`market.getMarketStats`, `contractManager.estimateContractGas`, the wallet
balance lookup) are modelled as oracle parameters returning
`Except String _` (an exception carries its message).  JavaScript numbers
are modelled as `ℚ`; JavaScript `undefined` as `Option.none`; a thrown
error as `Except.error`.  JavaScript truthiness tests on optional numbers
(`if (priceThreshold)`, `if (rule.interval)`) are modelled explicitly:
both `undefined` and `0` are falsy.
-/

namespace BoltAgent

/-! ## Task registry (`CryptoAgent.executeTask`) -/

/-- The uniform result shape produced by the dispatch wrapper:
`{ success: boolean, data?: any, error?: string }`. -/
structure TaskResult (δ : Type) where
  success : Bool
  data : Option δ := none
  error : Option String := none
deriving DecidableEq

/-- `CryptoAgent.executeTask(taskName, params)`.  The registry is a map from
task names to handlers; a handler either completes with a value or throws.
The wrapper looks the name up, returns a not-found failure for unknown
names, and otherwise packages the handler's outcome, catching any thrown
error. -/
def executeTask {π δ : Type} (tasks : String → Option (π → Except String δ))
    (taskName : String) (params : π) : TaskResult δ :=
  match tasks taskName with
  | none =>
    { success := false, error := some ("Task '" ++ taskName ++ "' not found") }
  | some task =>
    match task params with
    | .ok result => { success := true, data := some result }
    | .error e => { success := false, error := some e }

/-! ## Price checking (`CryptoAgent.checkPrice`, `analyzePriceMovement`) -/

/-- The price datum returned by `market.getPrice`. -/
structure PriceData where
  price : ℚ
  change24h : ℚ
deriving DecidableEq

/-- `CryptoAgent.analyzePriceMovement(priceData)`. -/
def analyzePriceMovement (priceData : PriceData) : String :=
  if priceData.change24h > 5 then "Consider Taking Profits"
  else if priceData.change24h < -5 then "Potential Buying Opportunity"
  else "Market Stable"

/-- The record returned by the `check_price` handler. -/
structure CheckPriceResult where
  price : ℚ
  change24h : ℚ
  recommendation : String
deriving DecidableEq

/-- `CryptoAgent.checkPrice({symbol})`, over a `getPrice` oracle. -/
def checkPrice (getPrice : String → Except String PriceData)
    (symbol : String) : Except String CheckPriceResult := do
  let priceData ← getPrice symbol
  pure { price := priceData.price, change24h := priceData.change24h,
         recommendation := analyzePriceMovement priceData }

/-! ## Trading (`CryptoAgent.executeTrade`) -/

inductive TradeType where
  | buy
  | sell
deriving DecidableEq

/-- Parameters of the `execute_trade` handler; `priceThreshold` is optional. -/
structure TradeParams where
  type : TradeType
  amount : String
  token : String
  priceThreshold : Option ℚ := none
deriving DecidableEq

/-- The synthetic execution record returned by `execute_trade`. -/
structure TradeRecord where
  type : TradeType
  amount : String
  token : String
  executionPrice : ℚ
  timestamp : String
deriving DecidableEq

/-- `CryptoAgent.executeTrade({type, amount, token, priceThreshold})` over a
`getPrice` oracle; `now` stands for `new Date().toISOString()`.  The source
guard is `if (priceThreshold)`: a JavaScript truthiness test, false both
for `undefined` and for the number `0`.  A rejected price fetch propagates
as an error; the source's two sequential `throw` guards appear as else-ifs
here because a throw aborts the rest of the body. -/
def executeTrade (getPrice : String → Except String PriceData) (now : String)
    (p : TradeParams) : Except String TradeRecord :=
  match getPrice p.token with
  | .error e => .error e
  | .ok currentPrice =>
    match p.priceThreshold with
    | some priceThreshold =>
      if priceThreshold ≠ 0 then
        if p.type = TradeType.buy ∧ currentPrice.price > priceThreshold then
          .error "Price above threshold"
        else if p.type = TradeType.sell ∧ currentPrice.price < priceThreshold then
          .error "Price below threshold"
        else
          .ok { type := p.type, amount := p.amount, token := p.token,
                executionPrice := currentPrice.price, timestamp := now }
      else
        .ok { type := p.type, amount := p.amount, token := p.token,
              executionPrice := currentPrice.price, timestamp := now }
    | none =>
      .ok { type := p.type, amount := p.amount, token := p.token,
            executionPrice := currentPrice.price, timestamp := now }

/-! ## Market analysis (`CryptoAgent.analyzeMarket` and helpers) -/

/-- One asset as returned by `market.getTopCryptos`. -/
structure Crypto where
  symbol : String
  price_change_percentage_24h : ℚ
deriving DecidableEq

/-- `CryptoAgent.identifyTopPerformers(cryptos)`: keep the assets with
strictly positive 24h change, sort descending by 24h change
(`.sort((a, b) => b.price_change_percentage_24h - a.price_change_percentage_24h)`,
a stable sort, modelled by `List.mergeSort`), and keep the first three. -/
def identifyTopPerformers (cryptos : List Crypto) : List Crypto :=
  ((cryptos.filter (fun c => c.price_change_percentage_24h > 0)).mergeSort
    (fun a b => b.price_change_percentage_24h ≤ a.price_change_percentage_24h)).take 3

/-- Global statistics as returned by `market.getMarketStats` (the source
reads `stats.data.total_market_cap.usd`, unused, and
`stats.data.market_cap_change_percentage_24h_usd`). -/
structure MarketStats where
  total_market_cap_usd : ℚ
  market_cap_change_percentage_24h_usd : ℚ
deriving DecidableEq

/-- `CryptoAgent.calculateMarketSentiment(stats)`. -/
def calculateMarketSentiment (stats : MarketStats) : String :=
  if stats.market_cap_change_percentage_24h_usd > 5 then "Bullish"
  else if stats.market_cap_change_percentage_24h_usd < -5 then "Bearish"
  else "Neutral"

/-- `CryptoAgent.generateMarketRecommendations(cryptos, stats)`: pushes one
line for a Bullish sentiment, one line for a Bearish one, and nothing for
a Neutral one (`cryptos` is unused by the source body). -/
def generateMarketRecommendations (cryptos : List Crypto)
    (stats : MarketStats) : List String :=
  let sentiment := calculateMarketSentiment stats
  if sentiment = "Bullish" then ["Consider increasing portfolio exposure"]
  else if sentiment = "Bearish" then ["Consider reducing risk"]
  else []

/-- The record returned by the `analyze_market` handler. -/
structure MarketAnalysis where
  topPerformers : List Crypto
  marketSentiment : String
  recommendations : List String
deriving DecidableEq

/-- `CryptoAgent.analyzeMarket()` over the two market oracles. -/
def analyzeMarket (getTopCryptos : ℕ → Except String (List Crypto))
    (getMarketStats : Unit → Except String MarketStats) :
    Except String MarketAnalysis := do
  let topCryptos ← getTopCryptos 10
  let marketStats ← getMarketStats ()
  pure { topPerformers := identifyTopPerformers topCryptos,
         marketSentiment := calculateMarketSentiment marketStats,
         recommendations := generateMarketRecommendations topCryptos marketStats }

/-! ## Smart-contract interaction (`CryptoAgent.interactWithContract`) -/

/-- Parameters of the `smart_contract_interaction` handler.  `abi` and
`params` are `any[]` in the source; the values relevant to the validation
logic are strings, so both are modelled as string lists. -/
structure ContractParams where
  address : String
  abi : List String
  method : String
  params : List String
deriving DecidableEq

/-- The record returned by `smart_contract_interaction`. -/
structure ContractResult where
  gasEstimate : String
  safetyCheck : String
  estimatedCost : String
deriving DecidableEq

/-- The all-`f` value compared against the second call parameter in
`validateHighRiskOperation` (the source literal, forty `f`s). -/
def maxAllowanceValue : String := "0xffffffffffffffffffffffffffffffffffffffff"

/-- `CryptoAgent.validateHighRiskOperation(method, params)`: throws iff the
method is `approve` and `params[1]` is the all-`f` value. -/
def validateHighRiskOperation (method : String) (params : List String) :
    Except String Unit :=
  if method = "approve" ∧ params[1]? = some maxAllowanceValue then
    throw "Infinite approval detected - consider limiting approval amount"
  else pure ()

/-- The source's `riskyMethods` list. -/
def riskyMethods : List String := ["transfer", "approve", "mint"]

/-- `CryptoAgent.validateContractInteraction(method, params)`. -/
def validateContractInteraction (method : String) (params : List String) :
    Except String Unit :=
  if method ∈ riskyMethods then validateHighRiskOperation method params
  else pure ()

/-- `CryptoAgent.calculateTransactionCost(gasEstimate)`. -/
def calculateTransactionCost (gasEstimate : String) : String :=
  "Estimated cost: " ++ gasEstimate ++ " gas units"

/-- `CryptoAgent.interactWithContract({address, abi, method, params})` over
an `estimateContractGas` oracle.  The gas estimate is requested first; the
validation pass runs after it and before the result is built. -/
def interactWithContract
    (estimateContractGas :
      String → List String → String → List String → Except String String)
    (p : ContractParams) : Except String ContractResult := do
  let gasEstimate ← estimateContractGas p.address p.abi p.method p.params
  validateContractInteraction p.method p.params
  pure { gasEstimate := gasEstimate, safetyCheck := "Passed",
         estimatedCost := calculateTransactionCost gasEstimate }

/-! ## Automation rule engine (`AutomationAgent`)

The mutable state of an `AutomationAgent` is its rule array (slots are
nulled on removal, never compacted) and its active-monitor map (here the
set of rule-ids holding a live timer; the timer handles themselves carry
no information the claims need).  The field `stopped` is a ghost history
variable, not present in the source: `stopped[r] = true` records that a
stop (`removeRule(r)` or `stopAllMonitoring()`) has happened since rule
`r` was added.  It is written only by the two stop operations and read
only by the stated invariant. -/

/-- An `AutomationRule` (`params` is `any` in the source, opaque here). -/
structure AutomationRule where
  condition : String
  action : String
  params : String
  interval : Option ℕ := none
deriving DecidableEq

/-- The state of an `AutomationAgent`. -/
structure AgentState where
  rules : List (Option AutomationRule)
  activeMonitors : Finset ℕ
  stopped : List Bool
deriving DecidableEq

/-- The state of a freshly constructed `AutomationAgent`. -/
def initialState : AgentState :=
  { rules := [], activeMonitors := ∅, stopped := [] }

/-- JavaScript truthiness of `rule.interval`: `undefined` and `0` are
falsy. -/
def intervalTruthy : Option ℕ → Bool
  | none => false
  | some i => i ≠ 0

/-- `AutomationAgent.startMonitoring(ruleId)`: re-reads the rule and
returns early on a null rule or a falsy interval
(`if (!rule || !rule.interval) return`); otherwise registers a timer
under `ruleId`. -/
def startMonitoring (s : AgentState) (ruleId : ℕ) : AgentState :=
  match s.rules[ruleId]? with
  | some (some rule) =>
    if intervalTruthy rule.interval then
      { s with activeMonitors := insert ruleId s.activeMonitors }
    else s
  | _ => s

/-- `AutomationAgent.stopMonitoring(ruleId)`: clears and deletes the timer
under `ruleId` when one exists (erasing an absent id is a no-op, as in the
source's `if (monitor)` guard). -/
def stopMonitoring (s : AgentState) (ruleId : ℕ) : AgentState :=
  { s with activeMonitors := s.activeMonitors.erase ruleId }

/-- `AutomationAgent.addRule(rule)`: appends the rule (its id is the
pre-add length) and, when `rule.interval` is truthy, starts monitoring.
The ghost `stopped` flag of the new rule starts out false. -/
def addRule (s : AgentState) (rule : AutomationRule) : ℕ × AgentState :=
  let ruleId := s.rules.length
  let s1 : AgentState :=
    { s with rules := s.rules ++ [some rule], stopped := s.stopped ++ [false] }
  (ruleId, if intervalTruthy rule.interval then startMonitoring s1 ruleId else s1)

/-- `AutomationAgent.removeRule(ruleId)`: on an in-range id (the source
checks `ruleId >= 0 && ruleId < this.rules.length`; ids are natural
numbers here) nulls the slot, stops monitoring and returns true; otherwise
returns false and changes nothing.  The ghost `stopped` flag of the
removed rule is set. -/
def removeRule (s : AgentState) (ruleId : ℕ) : Bool × AgentState :=
  if ruleId < s.rules.length then
    let s1 : AgentState :=
      { s with rules := s.rules.set ruleId none,
               stopped := s.stopped.set ruleId true }
    (true, stopMonitoring s1 ruleId)
  else (false, s)

/-- `AutomationAgent.getActiveRules()`: all `(ruleId, rule)` pairs whose
slot is not null. -/
def getActiveRules (s : AgentState) : List (ℕ × Option AutomationRule) :=
  s.rules.enum.filter (fun p => p.2 ≠ none)

/-- `AutomationAgent.stopAllMonitoring()`: stops every active monitor.
The ghost `stopped` flag of every rule is set. -/
def stopAllMonitoring (s : AgentState) : AgentState :=
  { s with activeMonitors := ∅, stopped := s.stopped.map (fun _ => true) }

/-- The states reachable from a fresh `AutomationAgent` through its public
mutating operations. -/
inductive Reachable : AgentState → Prop where
  | init : Reachable initialState
  | step_addRule (s : AgentState) (rule : AutomationRule) :
      Reachable s → Reachable (addRule s rule).2
  | step_removeRule (s : AgentState) (ruleId : ℕ) :
      Reachable s → Reachable (removeRule s ruleId).2
  | step_stopAll (s : AgentState) :
      Reachable s → Reachable (stopAllMonitoring s)

/-! ## Rule-condition evaluation (`AutomationAgent.evaluateCondition`) -/

/-- Splitting a character list at a separator, accumulating the current
piece in reverse; models `String.prototype.split` with a one-character
separator. -/
def splitOnCharAux (sep : Char) : List Char → List Char → List String
  | [], acc => [String.mk acc.reverse]
  | c :: rest, acc =>
    if c = sep then String.mk acc.reverse :: splitOnCharAux sep rest []
    else splitOnCharAux sep rest (c :: acc)

/-- `condition.split(':')` from the source (`String.prototype.split` with
a one-character separator; always returns at least one piece). -/
def splitOnChar (sep : Char) (s : String) : List String :=
  splitOnCharAux sep s.data []

/-- `AutomationAgent.evaluateCondition(condition)`.  Oracles:
`checkPriceTask` is `executeTask('check_price', {symbol})` projected to
`data.price` on success (`none` on failure, also for an `undefined`
symbol when the condition has too few pieces); `monitorWalletTask` is
`executeTask('monitor_wallet', {address})` projected to `data.balance`;
`parseFloat` models the JavaScript builtin, `none` standing for `NaN`
(every comparison against `NaN` is false; `parseFloat(undefined)` is
`NaN`).  Unknown condition types fall through to `false`. -/
def evaluateCondition (checkPriceTask : Option String → Option ℚ)
    (monitorWalletTask : Option String → Option String)
    (parseFloat : String → Option ℚ) (condition : String) : Bool :=
  let parseFloatOpt : Option String → Option ℚ := fun s? =>
    match s? with
    | none => none
    | some s => parseFloat s
  match splitOnChar ':' condition with
  | [] => false
  | condType :: params =>
    if condType = "price_below_threshold" then
      match checkPriceTask params[0]?, parseFloatOpt params[1]? with
      | some price, some threshold => price < threshold
      | _, _ => false
    else if condType = "wallet_balance_above" then
      match monitorWalletTask params[0]? with
      | some balance =>
        match parseFloat balance, parseFloatOpt params[1]? with
        | some b, some m => b > m
        | _, _ => false
      | none => false
    else false

/-! ## Message router: price-check handler
(`CryptoMessageHandler.handlePriceCheck`) -/

/-- A router response: formatted content plus suggested commands. -/
structure CryptoResponse where
  content : String
  suggestions : List String
deriving DecidableEq

/-- JavaScript template interpolation of a possibly-undefined string. -/
def optString : Option String → String
  | none => "undefined"
  | some s => s

/-- `CryptoMessageHandler.handlePriceCheck([_, symbol])` applied to the
`TaskResult` of `executeTask('check_price', {symbol})`.  `fmt` models
JavaScript number-to-string interpolation for the content lines; the
alert-threshold suggestion interpolates `Math.floor(result.data.price * 0.95)`,
an integer.  A success result with absent `data` (impossible through
`executeTask`) would make the source throw on property access; that case
is `none` here. -/
def handlePriceCheck (fmt : ℚ → String) (symbol : String)
    (result : TaskResult CheckPriceResult) : Option CryptoResponse :=
  if result.success = false then
    some { content := "Failed to get price for " ++ symbol ++ ": " ++
             optString result.error,
           suggestions := ["Try 'crypto price bitcoin'", "Try 'crypto market'"] }
  else
    result.data.map (fun d =>
      { content := symbol.toUpper ++ " Price Information:\n• Current Price: $" ++
          fmt d.price ++ "\n• 24h Change: " ++ fmt d.change24h ++
          "%\n• Recommendation: " ++ d.recommendation,
        suggestions :=
          ["crypto alert " ++ symbol ++ " at " ++
             toString ⌊d.price * (95 / 100 : ℚ)⌋,
           "crypto market",
           "crypto buy " ++ symbol ++ " 100"] })

/-! ## Theorems -/

/-- C1: `executeTask(name, params)` never raises: an unregistered name
yields `{success: false, error: "Task '<name>' not found"}`; a registered
handler completing with `v` yields `{success: true, data: v}`; a
registered handler throwing `e` yields `{success: false, error: e}`
instead of propagating (the wrapper is a total function into
`TaskResult`). -/
theorem executeTask_total_spec {π δ : Type}
    (tasks : String → Option (π → Except String δ))
    (taskName : String) (params : π) :
    (tasks taskName = none →
      executeTask tasks taskName params =
        { success := false, data := none,
          error := some ("Task '" ++ taskName ++ "' not found") }) ∧
    (∀ task v, tasks taskName = some task → task params = .ok v →
      executeTask tasks taskName params =
        { success := true, data := some v, error := none }) ∧
    (∀ task e, tasks taskName = some task → task params = .error e →
      executeTask tasks taskName params =
        { success := false, data := none, error := some e }) := by
  refine ⟨fun h => ?_, fun task v h hv => ?_, fun task e h he => ?_⟩ <;>
    simp [executeTask, h]
  · simp [hv]
  · simp [he]

/-- A sample registry with one handler, used to witness `executeTask`. -/
def sampleTasks : String → Option (Bool → Except String ℕ) :=
  fun n =>
    if n = "toggle" then some (fun b => if b then .ok 1 else .error "boom")
    else none

/-- Witness for C1 at a concrete registry. -/
theorem executeTask_total_spec_witness :
    executeTask sampleTasks "missing" true =
      { success := false, data := none,
        error := some "Task 'missing' not found" } ∧
    executeTask sampleTasks "toggle" true =
      { success := true, data := some 1, error := none } ∧
    executeTask sampleTasks "toggle" false =
      { success := false, data := none, error := some "boom" } :=
  ⟨(executeTask_total_spec sampleTasks "missing" true).1 rfl,
   (executeTask_total_spec sampleTasks "toggle" true).2.1 _ 1 rfl rfl,
   (executeTask_total_spec sampleTasks "toggle" false).2.2 _ "boom" rfl rfl⟩

/-- A constant price oracle, used in witnesses. -/
def constPrice (price change : ℚ) : String → Except String PriceData :=
  fun _ => .ok { price := price, change24h := change }

/-- C5: the `check_price` recommendation is "Consider Taking Profits" iff
`change24h > 5`, "Potential Buying Opportunity" iff `change24h < -5`, and
"Market Stable" otherwise; at `change24h = 5` exactly it is not
"Consider Taking Profits". -/
theorem checkPrice_recommendation_spec
    (getPrice : String → Except String PriceData) (symbol : String)
    (pd : PriceData) (hp : getPrice symbol = .ok pd) :
    checkPrice getPrice symbol =
      .ok { price := pd.price, change24h := pd.change24h,
            recommendation := analyzePriceMovement pd } ∧
    (analyzePriceMovement pd = "Consider Taking Profits" ↔ pd.change24h > 5) ∧
    (analyzePriceMovement pd = "Potential Buying Opportunity" ↔
      pd.change24h < -5) ∧
    (analyzePriceMovement pd = "Market Stable" ↔
      ¬ pd.change24h > 5 ∧ ¬ pd.change24h < -5) ∧
    (pd.change24h = 5 → analyzePriceMovement pd ≠ "Consider Taking Profits") := by
  refine ⟨by simp [checkPrice, hp], ?_, ?_, ?_, ?_⟩ <;>
    unfold analyzePriceMovement <;> split_ifs with h1 h2 <;> simp_all <;>
    first
      | decide
      | linarith

/-- Witness for C5 at the exact +5 boundary. -/
theorem checkPrice_recommendation_spec_witness :
    checkPrice (constPrice 100 5) "btc" =
      .ok { price := 100, change24h := 5,
            recommendation :=
              analyzePriceMovement { price := 100, change24h := 5 } } ∧
    analyzePriceMovement { price := 100, change24h := 5 } ≠
      "Consider Taking Profits" :=
  ⟨(checkPrice_recommendation_spec (constPrice 100 5) "btc" _ rfl).1,
   (checkPrice_recommendation_spec (constPrice 100 5) "btc" _ rfl).2.2.2.2 rfl⟩

/-- C9: on a successful price check, the first command suggested by the
router's price-check handler is the alert suggestion built from
`Math.floor(price * 0.95)`; at price 100 the suggested threshold is 95,
and at 50000 it is 47500. -/
theorem handlePriceCheck_alert_suggestion (fmt : ℚ → String)
    (symbol : String) (d : CheckPriceResult) :
    (handlePriceCheck fmt symbol
        { success := true, data := some d, error := none }).map
        (fun r => r.suggestions.head?) =
      some (some ("crypto alert " ++ symbol ++ " at " ++
        toString ⌊d.price * (95 / 100 : ℚ)⌋)) ∧
    ⌊(100 : ℚ) * (95 / 100)⌋ = 95 ∧ ⌊(50000 : ℚ) * (95 / 100)⌋ = 47500 := by
  refine ⟨by simp [handlePriceCheck], by norm_num, by norm_num⟩

/-! Reduction helpers for the `Except` monad (all definitional). -/

theorem exc_ok_bind {α β : Type} (a : α) (f : α → Except String β) :
    (Except.ok a : Except String α) >>= f = f a := rfl

theorem exc_error_bind {α β : Type} (e : String) (f : α → Except String β) :
    (Except.error e : Except String α) >>= f = .error e := rfl

theorem exc_throw_eq {α : Type} (e : String) :
    (throw e : Except String α) = .error e := rfl

theorem exc_pure_eq {α : Type} (a : α) :
    (pure a : Except String α) = .ok a := rfl

theorem exc_map_ok {α β : Type} (f : α → β) (a : α) :
    f <$> (Except.ok a : Except String α) = .ok (f a) := rfl

theorem exc_map_error {α β : Type} (f : α → β) (e : String) :
    f <$> (Except.error e : Except String α) = .error e := rfl

/-- C4 counterexample: with `priceThreshold` given as `0` and the fetched
price 100 strictly above it, a buy does not fail with "Price above
threshold" — the falsy-threshold guard is skipped and the trade succeeds. -/
theorem executeTrade_zero_threshold_counterexample :
    executeTrade (constPrice 100 0) "t0"
      { type := .buy, amount := "1", token := "eth", priceThreshold := some 0 } =
      .ok { type := .buy, amount := "1", token := "eth",
            executionPrice := 100, timestamp := "t0" } ∧
    executeTrade (constPrice 100 0) "t0"
      { type := .buy, amount := "1", token := "eth", priceThreshold := some 0 } ≠
      Except.error "Price above threshold" := by
  constructor
  · rfl
  · intro h
    rw [show executeTrade (constPrice 100 0) "t0"
          { type := .buy, amount := "1", token := "eth",
            priceThreshold := some 0 } =
        .ok { type := .buy, amount := "1", token := "eth",
              executionPrice := 100, timestamp := "t0" } from rfl] at h
    exact Except.noConfusion h

/-- C4 (amended): for every `execute_trade` call with a nonzero
`priceThreshold` (the guard `if (priceThreshold)` also skips a threshold
of 0, see the counterexample) and a successful price fetch: a buy above
the threshold fails with "Price above threshold", a sell below it fails
with "Price below threshold", and otherwise the call returns the record
`{type, amount, token, executionPrice, timestamp}` with `executionPrice`
the fetched price. -/
theorem executeTrade_threshold_spec
    (getPrice : String → Except String PriceData) (now : String)
    (p : TradeParams) (t : ℚ) (cp : PriceData)
    (hp : getPrice p.token = .ok cp) (ht : p.priceThreshold = some t)
    (ht0 : t ≠ 0) :
    (p.type = .buy → cp.price > t →
      executeTrade getPrice now p = .error "Price above threshold") ∧
    (p.type = .sell → cp.price < t →
      executeTrade getPrice now p = .error "Price below threshold") ∧
    (¬ (p.type = .buy ∧ cp.price > t) → ¬ (p.type = .sell ∧ cp.price < t) →
      executeTrade getPrice now p =
        .ok { type := p.type, amount := p.amount, token := p.token,
              executionPrice := cp.price, timestamp := now }) := by
  unfold executeTrade
  rw [hp, ht]
  dsimp only
  refine ⟨fun hb hgt => ?_, fun hs hlt => ?_, fun h1 h2 => ?_⟩
  · rw [if_pos ht0, if_pos ⟨hb, hgt⟩]
  · rw [if_pos ht0, if_neg (by simp [hs]), if_pos ⟨hs, hlt⟩]
  · rw [if_pos ht0, if_neg h1, if_neg h2]

/-- Witness for C4 at a concrete buy above a nonzero threshold. -/
theorem executeTrade_threshold_spec_witness :
    executeTrade (constPrice 100 0) "t0"
      { type := .buy, amount := "1", token := "eth", priceThreshold := some 50 } =
      .error "Price above threshold" :=
  (executeTrade_threshold_spec (constPrice 100 0) "t0"
      { type := .buy, amount := "1", token := "eth", priceThreshold := some 50 }
      50 { price := 100, change24h := 0 } rfl rfl (by norm_num)).1
    rfl (by norm_num)

/-- C10: `execute_trade` with `priceThreshold = 0` behaves exactly as if
no threshold were given — the guard `if (priceThreshold)` is falsy at 0,
so the call equals the threshold-free call, and whenever the price fetch
succeeds the trade succeeds (the threshold errors are unreachable for
threshold 0). -/
theorem executeTrade_zero_threshold_spec
    (getPrice : String → Except String PriceData) (now : String)
    (p : TradeParams) (h0 : p.priceThreshold = some 0) :
    executeTrade getPrice now p =
      executeTrade getPrice now { p with priceThreshold := none } ∧
    (∀ cp, getPrice p.token = .ok cp →
      executeTrade getPrice now p =
        .ok { type := p.type, amount := p.amount, token := p.token,
              executionPrice := cp.price, timestamp := now }) := by
  constructor
  · unfold executeTrade
    rw [h0]
    cases getPrice p.token with
    | error e => rfl
    | ok cp => simp
  · intro cp hp
    unfold executeTrade
    rw [hp, h0]
    dsimp only
    simp

/-- Witness for C10 at a concrete fetched price of 100. -/
theorem executeTrade_zero_threshold_spec_witness :
    executeTrade (constPrice 100 0) "t1"
      { type := .sell, amount := "2", token := "btc", priceThreshold := some 0 } =
      .ok { type := .sell, amount := "2", token := "btc",
            executionPrice := 100, timestamp := "t1" } :=
  (executeTrade_zero_threshold_spec (constPrice 100 0) "t1"
      { type := .sell, amount := "2", token := "btc", priceThreshold := some 0 }
      rfl).2 { price := 100, change24h := 0 } rfl

/-- C8: every `smart_contract_interaction` call with method "approve"
whose checked call parameter (`params[1]`, the position the source's
validation inspects) equals the all-`f` value is rejected: dispatched
through `executeTask` against a registry holding the source handler it
never reports success, and whenever the gas estimate itself succeeds the
reported error is the infinite-approval message. -/
theorem smart_contract_infinite_approval_spec
    (tasks : String → Option (ContractParams → Except String ContractResult))
    (estimateContractGas :
      String → List String → String → List String → Except String String)
    (p : ContractParams)
    (hreg : tasks "smart_contract_interaction" =
      some (interactWithContract estimateContractGas))
    (hm : p.method = "approve")
    (hp : p.params[1]? = some maxAllowanceValue) :
    (executeTask tasks "smart_contract_interaction" p).success = false ∧
    (∀ g, estimateContractGas p.address p.abi p.method p.params = .ok g →
      executeTask tasks "smart_contract_interaction" p =
        { success := false, data := none,
          error :=
            some "Infinite approval detected - consider limiting approval amount" }) := by
  have hval : validateContractInteraction p.method p.params =
      .error "Infinite approval detected - consider limiting approval amount" := by
    rw [validateContractInteraction, if_pos (by rw [hm]; decide),
      validateHighRiskOperation, if_pos ⟨hm, hp⟩]
    rfl
  have hrun : ∀ g, estimateContractGas p.address p.abi p.method p.params = .ok g →
      interactWithContract estimateContractGas p =
        .error "Infinite approval detected - consider limiting approval amount" := by
    intro g hg
    unfold interactWithContract
    rw [hg, exc_ok_bind, hval, exc_error_bind]
  constructor
  · rw [executeTask, hreg]
    dsimp only
    cases hG : estimateContractGas p.address p.abi p.method p.params with
    | error e =>
      have : interactWithContract estimateContractGas p = .error e := by
        unfold interactWithContract
        rw [hG, exc_error_bind]
      rw [this]
    | ok g =>
      rw [hrun g hG]
  · intro g hg
    rw [executeTask, hreg]
    dsimp only
    rw [hrun g hg]

/-- A sample registry holding the source contract handler over a constant
gas oracle, used to witness C8. -/
def sampleContractTasks :
    String → Option (ContractParams → Except String ContractResult) :=
  fun n =>
    if n = "smart_contract_interaction" then
      some (interactWithContract (fun _ _ _ _ => .ok "21000"))
    else none

/-- Witness for C8 at a concrete approve call. -/
theorem smart_contract_infinite_approval_spec_witness :
    executeTask sampleContractTasks "smart_contract_interaction"
      { address := "0xabc", abi := [], method := "approve",
        params := ["0xdef", maxAllowanceValue] } =
      { success := false, data := none,
        error :=
          some "Infinite approval detected - consider limiting approval amount" } :=
  (smart_contract_infinite_approval_spec sampleContractTasks
      (fun _ _ _ _ => .ok "21000")
      { address := "0xabc", abi := [], method := "approve",
        params := ["0xdef", maxAllowanceValue] }
      rfl rfl rfl).2 "21000" rfl

/-- C7: rule-condition evaluation is total (a `Bool`, never a raise) and:
a `price_below_threshold:symbol:threshold` condition is true iff the
price check succeeds and the fetched price is strictly below the parsed
threshold; a `wallet_balance_above:address:minBalance` condition is true
iff the wallet check succeeds and the parsed balance is strictly above
the parsed minimum; every other condition type evaluates to false. -/
theorem evaluateCondition_spec (checkPriceTask : Option String → Option ℚ)
    (monitorWalletTask : Option String → Option String)
    (parseFloat : String → Option ℚ) (condition : String) :
    (∀ sym thr,
      splitOnChar ':' condition = ["price_below_threshold", sym, thr] →
      (evaluateCondition checkPriceTask monitorWalletTask parseFloat condition =
          true ↔
        ∃ price t, checkPriceTask (some sym) = some price ∧
          parseFloat thr = some t ∧ price < t)) ∧
    (∀ addr thr,
      splitOnChar ':' condition = ["wallet_balance_above", addr, thr] →
      (evaluateCondition checkPriceTask monitorWalletTask parseFloat condition =
          true ↔
        ∃ bal b m, monitorWalletTask (some addr) = some bal ∧
          parseFloat bal = some b ∧ parseFloat thr = some m ∧ b > m)) ∧
    (∀ condType rest,
      splitOnChar ':' condition = condType :: rest →
      condType ≠ "price_below_threshold" → condType ≠ "wallet_balance_above" →
      evaluateCondition checkPriceTask monitorWalletTask parseFloat condition =
        false) := by
  refine ⟨fun sym thr hsplit => ?_, fun addr thr hsplit => ?_,
    fun condType rest hsplit h1 h2 => ?_⟩
  · rw [evaluateCondition, hsplit]
    dsimp only
    rw [if_pos rfl]
    cases hcp : checkPriceTask (some sym) with
    | none =>
      cases hpf : parseFloat thr <;> simp [hcp, hpf]
    | some price =>
      cases hpf : parseFloat thr with
      | none => simp [hcp, hpf]
      | some t => simp [hcp, hpf]
  · rw [evaluateCondition, hsplit]
    dsimp only
    rw [if_neg (by decide), if_pos rfl]
    cases hmw : monitorWalletTask (some addr) with
    | none => simp [hmw]
    | some bal =>
      cases hb : parseFloat bal with
      | none => simp [hmw, hb]
      | some b =>
        cases hm : parseFloat thr with
        | none => simp [hmw, hb, hm]
        | some m => simp [hmw, hb, hm]
  · rw [evaluateCondition, hsplit]
    dsimp only
    rw [if_neg h1, if_neg h2]

/-- A sample `parseFloat` oracle over a fixed table, used in witnesses. -/
def sampleParseFloat : String → Option ℚ :=
  fun s => if s = "3000" then some 3000 else if s = "1.5" then some (3 / 2) else none

/-- Witness for C7: a concrete price condition fires below the threshold,
and a typo'd condition type evaluates to false. -/
theorem evaluateCondition_spec_witness :
    evaluateCondition (fun _ => some 2500) (fun _ => none) sampleParseFloat
      "price_below_threshold:eth:3000" = true ∧
    evaluateCondition (fun _ => some 2500) (fun _ => none) sampleParseFloat
      "price_above_threshold:eth:3000" = false :=
  ⟨((evaluateCondition_spec (fun _ => some 2500) (fun _ => none) sampleParseFloat
        "price_below_threshold:eth:3000").1 "eth" "3000" (by decide)).mpr
      ⟨2500, 3000, rfl, rfl, by norm_num⟩,
   (evaluateCondition_spec (fun _ => some 2500) (fun _ => none) sampleParseFloat
        "price_above_threshold:eth:3000").2.2 "price_above_threshold"
      ["eth", "3000"] (by decide) (by decide) (by decide)⟩

/-- Neutral global statistics (24h market-cap change 0), used against C6. -/
def neutralStats : MarketStats :=
  { total_market_cap_usd := 1000000, market_cap_change_percentage_24h_usd := 0 }

/-- C6 counterexample: with a Neutral sentiment, `analyze_market` returns
an empty recommendation list — not "exactly one fixed suggestion line
determined by the sentiment". -/
theorem analyzeMarket_neutral_counterexample :
    analyzeMarket (fun _ => .ok []) (fun _ => .ok neutralStats) =
      .ok { topPerformers := [], marketSentiment := "Neutral",
            recommendations := [] } ∧
    generateMarketRecommendations [] neutralStats = [] ∧
    (generateMarketRecommendations [] neutralStats).length ≠ 1 := by
  refine ⟨?_, ?_, ?_⟩
  · norm_num [analyzeMarket, identifyTopPerformers, calculateMarketSentiment,
      generateMarketRecommendations, neutralStats, exc_ok_bind]
    all_goals decide
  · norm_num [generateMarketRecommendations, calculateMarketSentiment, neutralStats]
    all_goals decide
  · norm_num [generateMarketRecommendations, calculateMarketSentiment, neutralStats]
    all_goals decide

/-- C6 (amended): on successful fetches, `analyze_market` returns top
performers that are sorted descending by 24h change, all with strictly
positive change, drawn from the fetched assets and truncated to three
(`min 3` of the count of positive movers); the sentiment is "Bullish" iff
the global market-cap 24h change is above 5, "Bearish" iff below -5, else
"Neutral"; and the recommendations are exactly one fixed line for a
Bullish or Bearish sentiment and empty for a Neutral one. -/
theorem analyzeMarket_spec (getTopCryptos : ℕ → Except String (List Crypto))
    (getMarketStats : Unit → Except String MarketStats)
    (tc : List Crypto) (ms : MarketStats)
    (h1 : getTopCryptos 10 = .ok tc) (h2 : getMarketStats () = .ok ms) :
    analyzeMarket getTopCryptos getMarketStats =
      .ok { topPerformers := identifyTopPerformers tc,
            marketSentiment := calculateMarketSentiment ms,
            recommendations := generateMarketRecommendations tc ms } ∧
    List.Sorted (fun a b : Crypto =>
      b.price_change_percentage_24h ≤ a.price_change_percentage_24h)
      (identifyTopPerformers tc) ∧
    (∀ c ∈ identifyTopPerformers tc,
      c.price_change_percentage_24h > 0 ∧ c ∈ tc) ∧
    (identifyTopPerformers tc).length =
      min 3 (tc.filter (fun c => c.price_change_percentage_24h > 0)).length ∧
    (calculateMarketSentiment ms = "Bullish" ↔
      ms.market_cap_change_percentage_24h_usd > 5) ∧
    (calculateMarketSentiment ms = "Bearish" ↔
      ms.market_cap_change_percentage_24h_usd < -5) ∧
    (calculateMarketSentiment ms = "Neutral" ↔
      ¬ ms.market_cap_change_percentage_24h_usd > 5 ∧
        ¬ ms.market_cap_change_percentage_24h_usd < -5) ∧
    generateMarketRecommendations tc ms =
      (if ms.market_cap_change_percentage_24h_usd > 5 then
        ["Consider increasing portfolio exposure"]
      else if ms.market_cap_change_percentage_24h_usd < -5 then
        ["Consider reducing risk"]
      else []) := by
  have hsorted :
      (((tc.filter (fun c => c.price_change_percentage_24h > 0)).mergeSort
        (fun a b =>
          b.price_change_percentage_24h ≤ a.price_change_percentage_24h))).Pairwise
        (fun a b =>
          b.price_change_percentage_24h ≤ a.price_change_percentage_24h) := by
    have h := @List.sorted_mergeSort Crypto
      (fun a b : Crypto =>
        decide (b.price_change_percentage_24h ≤ a.price_change_percentage_24h))
      (fun a b c hab hbc => by
        simp only [decide_eq_true_eq] at *
        exact le_trans hbc hab)
      (fun a b => by
        simp only [Bool.or_eq_true, decide_eq_true_eq]
        exact le_total _ _)
      (tc.filter (fun c => c.price_change_percentage_24h > 0))
    exact h.imp (fun hd => of_decide_eq_true hd)
  refine ⟨by simp [analyzeMarket, h1, h2, exc_ok_bind], ?_, ?_, ?_, ?_, ?_, ?_, ?_⟩
  · exact (hsorted.sublist (List.take_sublist _ _))
  · intro c hc
    have hmem : c ∈ (tc.filter (fun c => c.price_change_percentage_24h > 0)) := by
      have := (List.take_sublist 3 _).subset hc
      exact List.mem_mergeSort.mp this
    have := List.mem_filter.mp hmem
    exact ⟨of_decide_eq_true this.2, this.1⟩
  · rw [identifyTopPerformers, List.length_take, List.length_mergeSort]
  · unfold calculateMarketSentiment
    split_ifs with hb hbe <;> simp_all <;> first | decide | linarith
  · unfold calculateMarketSentiment
    split_ifs with hb hbe <;> simp_all <;> first | decide | linarith
  · unfold calculateMarketSentiment
    split_ifs with hb hbe <;> simp_all <;> first | decide | linarith
  · by_cases hb : ms.market_cap_change_percentage_24h_usd > 5
    · simp [generateMarketRecommendations, calculateMarketSentiment, hb]
    · by_cases hbe : ms.market_cap_change_percentage_24h_usd < -5
      · simp [generateMarketRecommendations, calculateMarketSentiment, hb, hbe]
      · simp [generateMarketRecommendations, calculateMarketSentiment, hb, hbe]

/-- A sample automation rule with a one-minute interval. -/
def sampleRule : AutomationRule :=
  { condition := "price_below_threshold:eth:3000", action := "execute_trade",
    params := "", interval := some 60000 }

/-- A fresh agent after adding `sampleRule` (its id is 0). -/
def oneRuleState : AgentState := (addRule initialState sampleRule).2

/-- C2 counterexample: after removing rule 0, a second `removeRule(0)`
returns true again (the source only bounds-checks the id; the nulled slot
still counts toward the length), not false. -/
theorem removeRule_second_call_counterexample :
    (removeRule (removeRule oneRuleState 0).2 0).1 = true ∧
    (removeRule (removeRule oneRuleState 0).2 0).1 ≠ false := by
  constructor <;> decide

/-- C2 (amended): removing an in-range rule id succeeds and makes the id
absent from `getActiveRules()`; a second call with the same id returns
true again (not false), leaving the state unchanged. -/
theorem removeRule_spec (s : AgentState) (ruleId : ℕ)
    (h : ruleId < s.rules.length) :
    (removeRule s ruleId).1 = true ∧
    (∀ p ∈ getActiveRules (removeRule s ruleId).2, p.1 ≠ ruleId) ∧
    (removeRule (removeRule s ruleId).2 ruleId).1 = true ∧
    (removeRule (removeRule s ruleId).2 ruleId).2 = (removeRule s ruleId).2 := by
  have hstate : (removeRule s ruleId).2 =
      { rules := s.rules.set ruleId none,
        activeMonitors := s.activeMonitors.erase ruleId,
        stopped := s.stopped.set ruleId true } := by
    rw [removeRule, if_pos h]
    rfl
  refine ⟨by rw [removeRule, if_pos h], ?_, ?_, ?_⟩
  · intro p hp
    rw [hstate] at hp
    have hmem := List.mem_filter.mp hp
    have hget := List.mem_enum_iff_getElem?.mp hmem.1
    intro hpe
    rw [hpe] at hget
    rw [List.getElem?_set_self (by simpa using h)] at hget
    have hp2 : p.2 = none := by
      simpa using hget.symm
    exact (of_decide_eq_true hmem.2) hp2
  · rw [hstate, removeRule, if_pos (by simpa using h)]
  · rw [hstate, removeRule, if_pos (by simpa using h)]
    dsimp only
    simp only [stopMonitoring]
    simp [List.set_set, Finset.erase_idem]

/-- Witness for C2 on a one-rule agent. -/
theorem removeRule_spec_witness :
    (removeRule oneRuleState 0).1 = true ∧
    (removeRule (removeRule oneRuleState 0).2 0).1 = true ∧
    (removeRule (removeRule oneRuleState 0).2 0).2 = (removeRule oneRuleState 0).2 :=
  ⟨(removeRule_spec oneRuleState 0 (by decide)).1,
   (removeRule_spec oneRuleState 0 (by decide)).2.2.1,
   (removeRule_spec oneRuleState 0 (by decide)).2.2.2⟩

/-- The C3 invariant as the specification states it: a monitor exists for
`r` iff slot `r` holds a non-null rule whose `interval` is set (defined)
and no stop has happened since that rule was added. -/
def monitorInvariantStated (s : AgentState) : Prop :=
  ∀ r : ℕ, r ∈ s.activeMonitors ↔
    ∃ rule, s.rules[r]? = some (some rule) ∧ rule.interval.isSome = true ∧
      s.stopped[r]? = some false

/-- The C3 invariant corrected for JavaScript truthiness: the rule's
`interval` must be set and nonzero for a monitor to exist. -/
def monitorInvariant (s : AgentState) : Prop :=
  ∀ r : ℕ, r ∈ s.activeMonitors ↔
    ∃ rule, s.rules[r]? = some (some rule) ∧ intervalTruthy rule.interval = true ∧
      s.stopped[r]? = some false

/-- A rule whose interval is set but zero — `addRule` starts no monitor
for it, because `if (rule.interval)` is falsy at 0. -/
def zeroIntervalRule : AutomationRule :=
  { condition := "market_analysis", action := "analyze_market", params := "",
    interval := some 0 }

/-- C3 counterexample: adding a rule whose interval is set to 0 reaches a
state with no monitor for it, violating the invariant as stated ("interval
is set"): the slot holds a non-null rule with a set interval and no stop
has happened, yet no monitor exists. -/
theorem monitorInvariantStated_counterexample :
    Reachable (addRule initialState zeroIntervalRule).2 ∧
    ¬ monitorInvariantStated (addRule initialState zeroIntervalRule).2 := by
  constructor
  · exact Reachable.step_addRule initialState zeroIntervalRule Reachable.init
  · intro hinv
    have h0 := (hinv 0).mpr ⟨zeroIntervalRule, rfl, rfl, rfl⟩
    exact absurd h0 (by decide)

/-- `addRule` in closed form: append the rule and a fresh ghost flag, and
register a monitor exactly when the interval is truthy. -/
theorem addRule_state (s : AgentState) (rule : AutomationRule) :
    (addRule s rule).2 =
      { rules := s.rules ++ [some rule],
        activeMonitors :=
          if intervalTruthy rule.interval then
            insert s.rules.length s.activeMonitors
          else s.activeMonitors,
        stopped := s.stopped ++ [false] } := by
  rw [addRule]
  dsimp only
  by_cases ht : intervalTruthy rule.interval
  · rw [if_pos ht, if_pos ht, startMonitoring]
    dsimp only
    rw [List.getElem?_concat_length]
    dsimp only
    rw [if_pos ht]
  · rw [if_neg ht, if_neg ht]

/-- Auxiliary induction: every reachable state keeps the ghost flags
aligned with the rule slots and satisfies the truthy monitor invariant. -/
theorem reachable_aux (s : AgentState) (h : Reachable s) :
    s.stopped.length = s.rules.length ∧ monitorInvariant s := by
  induction h with
  | init =>
    refine ⟨rfl, fun r => ?_⟩
    constructor
    · intro hr
      exact absurd hr (by simp [initialState])
    · rintro ⟨rule, hrule, -, -⟩
      simp [initialState] at hrule
  | step_addRule s rule hR ih =>
    obtain ⟨ihlen, ihinv⟩ := ih
    rw [addRule_state s rule]
    refine ⟨by simp [ihlen], fun r => ?_⟩
    dsimp only
    rcases lt_trichotomy r s.rules.length with hlt | heq | hgt
    · rw [List.getElem?_append_left hlt,
        List.getElem?_append_left (by rw [ihlen]; exact hlt)]
      by_cases ht : intervalTruthy rule.interval
      · rw [if_pos ht, Finset.mem_insert]
        constructor
        · rintro (hre | hr)
          · exact absurd hre (by omega)
          · exact (ihinv r).mp hr
        · intro hx
          exact Or.inr ((ihinv r).mpr hx)
      · rw [if_neg ht]
        exact ihinv r
    · subst heq
      rw [List.getElem?_concat_length]
      have hstop : (s.stopped ++ [false])[s.rules.length]? = some false := by
        rw [← ihlen]
        exact List.getElem?_concat_length _ _
      rw [hstop]
      by_cases ht : intervalTruthy rule.interval
      · rw [if_pos ht, Finset.mem_insert]
        constructor
        · intro _
          exact ⟨rule, rfl, ht, rfl⟩
        · intro _
          exact Or.inl rfl
      · rw [if_neg ht]
        constructor
        · intro hr
          obtain ⟨rule', hr', -, -⟩ := (ihinv _).mp hr
          rw [List.getElem?_eq_none (le_refl _)] at hr'
          exact absurd hr' (by simp)
        · rintro ⟨rule', hr', htr', -⟩
          obtain rfl : rule = rule' := by simpa using hr'
          exact absurd htr' (by simp [ht])
    · rw [List.getElem?_eq_none (by simp; omega)]
      have hnomem : r ∉ s.activeMonitors := by
        intro hr
        obtain ⟨rule', hr', -, -⟩ := (ihinv r).mp hr
        rw [List.getElem?_eq_none (by omega)] at hr'
        exact absurd hr' (by simp)
      by_cases ht : intervalTruthy rule.interval
      · rw [if_pos ht, Finset.mem_insert]
        constructor
        · rintro (hre | hr)
          · exact absurd hre (by omega)
          · exact absurd hr hnomem
        · rintro ⟨rule', hr', -, -⟩
          exact absurd hr' (by simp)
      · rw [if_neg ht]
        constructor
        · intro hr
          exact absurd hr hnomem
        · rintro ⟨rule', hr', -, -⟩
          exact absurd hr' (by simp)
  | step_removeRule s ruleId hR ih =>
    obtain ⟨ihlen, ihinv⟩ := ih
    by_cases h : ruleId < s.rules.length
    · have hstate : (removeRule s ruleId).2 =
          { rules := s.rules.set ruleId none,
            activeMonitors := s.activeMonitors.erase ruleId,
            stopped := s.stopped.set ruleId true } := by
        rw [removeRule, if_pos h]
        rfl
      rw [hstate]
      refine ⟨by simp [ihlen], fun r => ?_⟩
      dsimp only
      by_cases hre : r = ruleId
      · subst hre
        rw [List.getElem?_set_self h]
        constructor
        · intro hr
          exact ((Finset.mem_erase.mp hr).1 rfl).elim
        · rintro ⟨rule', hr', -, -⟩
          exact absurd hr' (by simp)
      · rw [List.getElem?_set_ne (fun hh => hre hh.symm),
          List.getElem?_set_ne (fun hh => hre hh.symm), Finset.mem_erase]
        constructor
        · rintro ⟨-, hr⟩
          exact (ihinv r).mp hr
        · intro hx
          exact ⟨hre, (ihinv r).mpr hx⟩
    · have hstate : (removeRule s ruleId).2 = s := by
        rw [removeRule, if_neg h]
      rw [hstate]
      exact ⟨ihlen, ihinv⟩
  | step_stopAll s hR ih =>
    obtain ⟨ihlen, ihinv⟩ := ih
    refine ⟨by simp [stopAllMonitoring, ihlen], fun r => ?_⟩
    simp only [stopAllMonitoring]
    constructor
    · intro hr
      exact absurd hr (by simp)
    · rintro ⟨rule', -, -, hst'⟩
      rw [List.getElem?_map] at hst'
      cases hs : s.stopped[r]? with
      | none =>
        rw [hs] at hst'
        simp at hst'
      | some b =>
        rw [hs] at hst'
        simp at hst'

/-- C3 (amended): on every reachable `AutomationAgent` state, a monitor
entry exists for rule-id `r` iff slot `r` holds a non-null rule whose
interval is set and nonzero (truthy — an interval of 0 starts no monitor,
see the counterexample) and no stop (`removeRule(r)` or
`stopAllMonitoring`) has happened since that rule was added. -/
theorem reachable_monitorInvariant (s : AgentState) (h : Reachable s) :
    monitorInvariant s :=
  (reachable_aux s h).2

/-- Witness for C3 on a concrete reachable two-step state. -/
theorem reachable_monitorInvariant_witness :
    monitorInvariant (removeRule (addRule initialState sampleRule).2 0).2 :=
  reachable_monitorInvariant _
    (Reachable.step_removeRule _ 0
      (Reachable.step_addRule initialState sampleRule Reachable.init))

/-- Bullish global statistics, used to witness C6. -/
def bullishStats : MarketStats :=
  { total_market_cap_usd := 1000000, market_cap_change_percentage_24h_usd := 6 }

/-- Witness for C6 over concrete bullish oracles. -/
theorem analyzeMarket_spec_witness :
    analyzeMarket
        (fun _ => .ok [{ symbol := "btc", price_change_percentage_24h := 3 }])
        (fun _ => .ok bullishStats) =
      .ok { topPerformers :=
              identifyTopPerformers
                [{ symbol := "btc", price_change_percentage_24h := 3 }],
            marketSentiment := calculateMarketSentiment bullishStats,
            recommendations :=
              generateMarketRecommendations
                [{ symbol := "btc", price_change_percentage_24h := 3 }]
                bullishStats } ∧
    generateMarketRecommendations
        [{ symbol := "btc", price_change_percentage_24h := 3 }] bullishStats =
      (if bullishStats.market_cap_change_percentage_24h_usd > 5 then
        ["Consider increasing portfolio exposure"]
      else if bullishStats.market_cap_change_percentage_24h_usd < -5 then
        ["Consider reducing risk"]
      else []) :=
  ⟨(analyzeMarket_spec
      (fun _ => .ok [{ symbol := "btc", price_change_percentage_24h := 3 }])
      (fun _ => .ok bullishStats)
      [{ symbol := "btc", price_change_percentage_24h := 3 }] bullishStats
      rfl rfl).1,
   (analyzeMarket_spec
      (fun _ => .ok [{ symbol := "btc", price_change_percentage_24h := 3 }])
      (fun _ => .ok bullishStats)
      [{ symbol := "btc", price_change_percentage_24h := 3 }] bullishStats
      rfl rfl).2.2.2.2.2.2.2⟩

end BoltAgent
